import Mathlib

/-!
Verification of the RISWIS retrieval-and-ranking pipeline.

This development shallowly embeds the Python sources:
  src/main.py, src/retrieval/similarity.py, src/retrieval/doc_embeddings.py.

Modelling conventions:
- JSON values (the results of Python `json.load` / `json.loads`) are the
  inductive type `JVal`; numbers are modelled as integers (the manifests and
  configs in scope hold strings, integers and booleans; IEEE floating point
  is outside the embedding).
- File reads followed by `json.load` are modelled by passing the parsed
  `JVal` directly: two byte-serializations of one JSON document that differ
  only in insignificant whitespace parse to the *same* `JVal`, and two that
  differ only in object key order parse to `KeyPerm`-related `JVal`s.
- Python exceptions are the error branch of `Except PyError`.
- Similarity scores and tier multipliers are modelled as rationals `ℚ`.
-/

namespace Riswis

/-- A parsed JSON value, as produced by Python `json.load`.  Object entries
keep their textual order (Python dicts preserve insertion order); numbers are
restricted to integers. -/
inductive JVal where
  | null : JVal
  | bool (b : Bool) : JVal
  | num (n : Int) : JVal
  | str (s : String) : JVal
  | arr (xs : List JVal) : JVal
  | obj (kvs : List (String × JVal)) : JVal
deriving Repr

/-- Python truthiness (`bool(x)`) of a parsed JSON value: `None`, `False`,
`0`, `""`, `[]` and `{}` are falsy, everything else truthy. -/
def pyTruthy : JVal → Bool
  | .null => false
  | .bool b => b
  | .num n => n ≠ 0
  | .str s => s ≠ ""
  | .arr xs => !xs.isEmpty
  | .obj kvs => !kvs.isEmpty

/-- Escape one character the way Python `json.dumps(..., ensure_ascii=False)`
does: `"` and `\` are backslash-escaped, the named control characters use
their short escapes, the remaining control characters below U+0020 use
`\uXXXX`, and every other character is emitted verbatim. -/
def escChar (c : Char) : String :=
  if c = '"' then "\\\""
  else if c = '\\' then "\\\\"
  else if c = '\n' then "\\n"
  else if c = '\r' then "\\r"
  else if c = '\t' then "\\t"
  else if c = (Char.ofNat 8) then "\\b"
  else if c = (Char.ofNat 12) then "\\f"
  else if c.toNat < 32 then
    let n := c.toNat
    let hexDig : Nat → Char := fun d => if d < 10 then Char.ofNat (48 + d) else Char.ofNat (87 + d)
    String.mk ['\\', 'u', '0', '0', hexDig (n / 16), hexDig (n % 16)]
  else String.mk [c]

/-- Serialize a string as a JSON string literal (Python `json.dumps` on a
`str`, `ensure_ascii=False`). -/
def escStr (s : String) : String :=
  "\"" ++ String.join (s.data.map escChar) ++ "\""

/-- Sort a list of (key, serialized value) pairs by key, as `sort_keys=True`
does with the items of a dict (Python string comparison is lexicographic on
code points, which is exactly `String.le`). -/
def sortPairs (l : List (String × String)) : List (String × String) :=
  l.insertionSort (fun a b => a.1 ≤ b.1)

/-- Join already-serialized items with the default item separator `", "`. -/
def joinItems : List String → String
  | [] => ""
  | [x] => x
  | x :: y :: rest => x ++ ", " ++ joinItems (y :: rest)

/-- Render the sorted (key, serialized value) pairs of an object with the
default key separator `": "`. -/
def renderEntries (l : List (String × String)) : String :=
  joinItems (l.map (fun p => escStr p.1 ++ ": " ++ p.2))

mutual

/-- Canonical JSON serialization: models the Python standard-library call
`json.dumps(obj, ensure_ascii=False, sort_keys=True)` (default separators
`", "` and `": "`).  Object entries are serialized and then sorted by key. -/
def jsonDumps : JVal → String
  | .null => "null"
  | .bool true => "true"
  | .bool false => "false"
  | .num n => toString n
  | .str s => escStr s
  | .arr xs => "[" ++ joinItems (dumpsList xs) ++ "]"
  | .obj kvs => "\x7b" ++ renderEntries (sortPairs (dumpsEntries kvs)) ++ "\x7d"

/-- Serialize each element of a JSON array. -/
def dumpsList : List JVal → List String
  | [] => []
  | x :: xs => jsonDumps x :: dumpsList xs

/-- Serialize the value of each object entry, keeping the key. -/
def dumpsEntries : List (String × JVal) → List (String × String)
  | [] => []
  | (k, v) :: rest => (k, jsonDumps v) :: dumpsEntries rest

end

/-! ### UTF-8 and SHA-256 (models `str.encode("utf-8")` and `hashlib.sha256`) -/

/-- UTF-8 encoding of one Unicode scalar value, as a list of byte values. -/
def utf8Char (c : Char) : List Nat :=
  let n := c.toNat
  if n < 0x80 then [n]
  else if n < 0x800 then
    [0xC0 ||| (n >>> 6), 0x80 ||| (n &&& 0x3F)]
  else if n < 0x10000 then
    [0xE0 ||| (n >>> 12), 0x80 ||| ((n >>> 6) &&& 0x3F), 0x80 ||| (n &&& 0x3F)]
  else
    [0xF0 ||| (n >>> 18), 0x80 ||| ((n >>> 12) &&& 0x3F),
     0x80 ||| ((n >>> 6) &&& 0x3F), 0x80 ||| (n &&& 0x3F)]

/-- UTF-8 encoding of a string (`s.encode("utf-8")`). -/
def utf8Bytes (s : String) : List Nat :=
  (s.data.map utf8Char).flatten

/-- 32-bit truncating addition. -/
def add32 (x y : Nat) : Nat := (x + y) % 2 ^ 32

/-- Rotate a 32-bit word right by `n` bits. -/
def rotr32 (n x : Nat) : Nat := ((x >>> n) ||| (x <<< (32 - n))) % 2 ^ 32

/-- The eight 32-bit working variables of SHA-256. -/
structure Hash8 where
  a : Nat
  b : Nat
  c : Nat
  d : Nat
  e : Nat
  f : Nat
  g : Nat
  h : Nat
deriving Repr

/-- SHA-256 initial hash value (FIPS 180-4 §5.3.3). -/
def sha256Init : Hash8 :=
  ⟨0x6A09E667, 0xBB67AE85, 0x3C6EF372,
   0xA54FF53A, 0x510E527F, 0x9B05688C,
   0x1F83D9AB, 0x5BE0CD19⟩

/-- SHA-256 round constants K (FIPS 180-4 §4.2.2). -/
def sha256K : List Nat :=
  [
   0x428A2F98, 0x71374491, 0xB5C0FBCF, 0xE9B5DBA5, 0x3956C25B,
   0x59F111F1, 0x923F82A4, 0xAB1C5ED5, 0xD807AA98, 0x12835B01,
   0x243185BE, 0x550C7DC3, 0x72BE5D74, 0x80DEB1FE, 0x9BDC06A7,
   0xC19BF174, 0xE49B69C1, 0xEFBE4786, 0x0FC19DC6, 0x240CA1CC,
   0x2DE92C6F, 0x4A7484AA, 0x5CB0A9DC, 0x76F988DA, 0x983E5152,
   0xA831C66D, 0xB00327C8, 0xBF597FC7, 0xC6E00BF3, 0xD5A79147,
   0x06CA6351, 0x14292967, 0x27B70A85, 0x2E1B2138, 0x4D2C6DFC,
   0x53380D13, 0x650A7354, 0x766A0ABB, 0x81C2C92E, 0x92722C85,
   0xA2BFE8A1, 0xA81A664B, 0xC24B8B70, 0xC76C51A3, 0xD192E819,
   0xD6990624, 0xF40E3585, 0x106AA070, 0x19A4C116, 0x1E376C08,
   0x2748774C, 0x34B0BCB5, 0x391C0CB3, 0x4ED8AA4A, 0x5B9CCA4F,
   0x682E6FF3, 0x748F82EE, 0x78A5636F, 0x84C87814, 0x8CC70208,
   0x90BEFFFA, 0xA4506CEB, 0xBEF9A3F7, 0xC67178F2]

/-- Pad a message (FIPS 180-4 §5.1.1): append `0x80`, then zeros, then the
bit length as eight big-endian bytes, to a multiple of 64 bytes. -/
def sha256Pad (msg : List Nat) : List Nat :=
  let len := msg.length
  let zeros := (119 - len % 64) % 64
  let bitLen := 8 * len
  msg ++ [0x80] ++ List.replicate zeros 0 ++
    [(bitLen >>> 56) &&& 0xFF, (bitLen >>> 48) &&& 0xFF, (bitLen >>> 40) &&& 0xFF,
     (bitLen >>> 32) &&& 0xFF, (bitLen >>> 24) &&& 0xFF, (bitLen >>> 16) &&& 0xFF,
     (bitLen >>> 8) &&& 0xFF, bitLen &&& 0xFF]

/-- Split a byte list into 64-byte blocks. -/
def chunks64 : List Nat → List (List Nat)
  | [] => []
  | x :: xs => (x :: xs).take 64 :: chunks64 ((x :: xs).drop 64)
termination_by l => l.length
decreasing_by simp; omega

/-- Combine bytes into big-endian 32-bit words (§6.2.2 step 1, first 16). -/
def toWordsBE : List Nat → List Nat
  | b0 :: b1 :: b2 :: b3 :: rest =>
    ((b0 <<< 24) ||| (b1 <<< 16) ||| (b2 <<< 8) ||| b3) :: toWordsBE rest
  | _ => []

/-- Message-schedule small sigma 0 (§4.2.2). -/
def ssig0 (x : Nat) : Nat := (rotr32 7 x) ^^^ (rotr32 18 x) ^^^ (x >>> 3)

/-- Message-schedule small sigma 1 (§4.2.2). -/
def ssig1 (x : Nat) : Nat := (rotr32 17 x) ^^^ (rotr32 19 x) ^^^ (x >>> 10)

/-- Extend the 16 block words to the 64-word message schedule. -/
def scheduleGo (w : Array Nat) (i : Nat) : Array Nat :=
  if i < 64 then
    let nw := add32 (add32 (ssig1 (w.getD (i - 2) 0)) (w.getD (i - 7) 0))
      (add32 (ssig0 (w.getD (i - 15) 0)) (w.getD (i - 16) 0))
    scheduleGo (w.push nw) (i + 1)
  else w
termination_by 64 - i

/-- The 64-word message schedule of one block. -/
def schedule (w16 : List Nat) : List Nat :=
  (scheduleGo w16.toArray 16).toList

/-- One SHA-256 round (§6.2.2 step 3) on the working variables. -/
def sha256Round (s : Hash8) (kw : Nat × Nat) : Hash8 :=
  let bsig1 := (rotr32 6 s.e) ^^^ (rotr32 11 s.e) ^^^ (rotr32 25 s.e)
  let ch := ((s.e &&& s.f) ^^^ ((s.e ^^^ 0xFFFFFFFF) &&& s.g)) % 2 ^ 32
  let t1 := add32 (add32 (add32 s.h bsig1) (add32 ch kw.1)) kw.2
  let bsig0 := (rotr32 2 s.a) ^^^ (rotr32 13 s.a) ^^^ (rotr32 22 s.a)
  let maj := ((s.a &&& s.b) ^^^ (s.a &&& s.c) ^^^ (s.b &&& s.c)) % 2 ^ 32
  let t2 := add32 bsig0 maj
  ⟨add32 t1 t2, s.a, s.b, s.c, add32 s.d t1, s.e, s.f, s.g⟩

/-- Process one 64-byte block (§6.2.2). -/
def sha256Block (st : Hash8) (block : List Nat) : Hash8 :=
  let ws := schedule (toWordsBE block)
  let w := (sha256K.zip ws).foldl sha256Round st
  ⟨add32 st.a w.a, add32 st.b w.b, add32 st.c w.c, add32 st.d w.d,
   add32 st.e w.e, add32 st.f w.f, add32 st.g w.g, add32 st.h w.h⟩

/-- Big-endian bytes of one 32-bit word. -/
def wordBytes (w : Nat) : List Nat :=
  [(w >>> 24) &&& 0xFF, (w >>> 16) &&& 0xFF, (w >>> 8) &&& 0xFF, w &&& 0xFF]

/-- The 32-byte digest of a final hash state. -/
def digestBytes (st : Hash8) : List Nat :=
  wordBytes st.a ++ wordBytes st.b ++ wordBytes st.c ++ wordBytes st.d ++
  wordBytes st.e ++ wordBytes st.f ++ wordBytes st.g ++ wordBytes st.h

/-- SHA-256 of a byte list (models `hashlib.sha256(...).digest()`). -/
def sha256 (msg : List Nat) : List Nat :=
  digestBytes ((chunks64 (sha256Pad msg)).foldl sha256Block sha256Init)

/-- Lowercase hex digit. -/
def hexDigit (d : Nat) : Char :=
  if d < 10 then Char.ofNat (48 + d) else Char.ofNat (87 + d)

/-- Two lowercase hex characters of one byte. -/
def hexByte (b : Nat) : String :=
  String.mk [hexDigit (b / 16), hexDigit (b % 16)]

/-- Lowercase hex string of a byte list (models `.hexdigest()`). -/
def toHex : List Nat → String
  | [] => ""
  | b :: bs => hexByte b ++ toHex bs

/-- SHA-256 hex digest of a string's UTF-8 bytes:
`hashlib.sha256(text.encode("utf-8")).hexdigest()`. -/
def sha256HexOfString (text : String) : String :=
  toHex (sha256 (utf8Bytes text))

/-! ### Python exceptions -/

/-- The Python exceptions the embedded code can raise, with their messages. -/
inductive PyError where
  | valueError (msg : String) : PyError
  | runtimeError (msg : String) : PyError
  | typeError (msg : String) : PyError
deriving DecidableEq, Repr

/-- Python `str(x)` on a parsed JSON value, as interpolated by an f-string.
Scalar cases are exact; for lists and dicts CPython uses `repr`-based
rendering, approximated here by the JSON serialization (no claim inspects a
message built from a container). -/
def pyStr : JVal → String
  | .str s => s
  | .num n => toString n
  | .bool true => "True"
  | .bool false => "False"
  | .null => "None"
  | .arr xs => jsonDumps (.arr xs)
  | .obj kvs => jsonDumps (.obj kvs)

/-- Python `needle in hay` on strings: substring containment. -/
def listStartsWith : List Char → List Char → Bool
  | [], _ => true
  | _ :: _, [] => false
  | a :: as, b :: bs => a = b && listStartsWith as bs

/-- Substring test on character lists (`needle`, then haystack). -/
def listSub (needle : List Char) : List Char → Bool
  | [] => needle.isEmpty
  | c :: rest => listStartsWith needle (c :: rest) || listSub needle rest

/-! ### src/main.py -/

namespace Main

/-- `sha256_manifest_json` from src/main.py (lines 31-42): read the manifest
file, `json.load` it, re-serialize canonically (`ensure_ascii=False,
sort_keys=True`) and hash.  The file read plus `json.load` are modelled by
passing the parsed value. -/
def sha256_manifest_json (manifest : JVal) : String :=
  sha256HexOfString (jsonDumps manifest)

/-- Python `current != expected` negated, where `current` is a `str` and
`expected` an arbitrary parsed JSON value: they are equal exactly when
`expected` is the same string. -/
def pyEqStrJV (current : String) (expected : JVal) : Bool :=
  match expected with
  | .str s => current = s
  | _ => false

/-- The RuntimeError message of `verify_embeddings_match_manifest`
(src/main.py lines 57-62). -/
def mismatchMsg (expected : JVal) (current : String) : String :=
  "Embeddings/manifest mismatch.\n" ++
  "- embeddings_manifest.source_manifest_hash: " ++ pyStr expected ++ "\n" ++
  "- current manifest.json hash:              " ++ current ++ "\n\n" ++
  "Fix: re-run \x60python -m src.retrieval.doc_embeddings\x60 to regenerate cached embeddings."

/-- The ValueError message for a missing/falsy recorded hash (line 52). -/
def missingHashMsg : String :=
  "Embedding manifest missing \x27source_manifest_hash\x27."

/-- `verify_embeddings_match_manifest` from src/main.py (lines 45-62).
`embedding_info` is the parsed embeddings manifest (a dict, modelled as an
association list); `manifest` is the parsed current manifest.json. -/
def verify_embeddings_match_manifest (manifest : JVal)
    (embedding_info : List (String × JVal)) : Except PyError Unit :=
  match embedding_info.lookup "source_manifest_hash" with
  | none => .error (.valueError missingHashMsg)
  | some expected =>
    if pyTruthy expected then
      let current := sha256_manifest_json manifest
      if pyEqStrJV current expected then .ok ()
      else .error (.runtimeError (mismatchMsg expected current))
    else .error (.valueError missingHashMsg)

/-- A candidate produced by the retrieval layer:
`{"doc_id": str, "tier": str, "raw_sim": float}`. -/
structure Candidate where
  doc_id : String
  tier : String
  raw_sim : ℚ
deriving DecidableEq, Repr

/-- A result record built by the `__main__` loop (src/main.py lines 151-159). -/
structure ResultRec where
  doc_id : String
  tier : String
  similarity : ℚ
  multiplier : ℚ
  weighted_score : ℚ
deriving DecidableEq, Repr

/-- `rank_results` from src/main.py (lines 17-18): Python
`sorted(results, key=lambda x: x["weighted_score"], reverse=True)`, a stable
sort descending by `weighted_score`. -/
def rank_results (results : List ResultRec) : List ResultRec :=
  results.insertionSort (fun a b => b.weighted_score ≤ a.weighted_score)

/-- The weighting loop of `__main__` (src/main.py lines 140-159): for each
candidate look up its tier's multiplier (raising ValueError on an unknown
tier) and build the result record with
`weighted_score = similarity * multiplier`. -/
def processCandidates (tms : List (String × ℚ)) :
    List Candidate → Except PyError (List ResultRec)
  | [] => .ok []
  | c :: cs =>
    match tms.lookup c.tier with
    | none => .error (.valueError ("Unknown tier \x27" ++ c.tier ++ "\x27 in manifest."))
    | some m => do
      let rest ← processCandidates tms cs
      .ok (⟨c.doc_id, c.tier, c.raw_sim, m, c.raw_sim * m⟩ :: rest)

/-- The observable outcome of a completed run: the printed top results and
the written log file, the latter modelled by the result records it logs
(`log_run`, src/main.py lines 65-107, writes exactly `top_results`). -/
structure RunOutcome where
  top_results : List ResultRec
  log : List ResultRec
deriving DecidableEq, Repr

/-- The tail of `__main__` (src/main.py lines 140-182) after candidates are
built: weight, rank, truncate to `top_k`, then (when an embeddings manifest
exists) verify it against the current manifest, and finally write the log.
An exception anywhere aborts the run: no log is written. -/
def mainPipeline (tms : List (String × ℚ)) (top_k : Nat)
    (cands : List Candidate) (manifest : JVal)
    (embedding_info : Option (List (String × JVal))) :
    Except PyError RunOutcome := do
  let results ← processCandidates tms cands
  let ranked := rank_results results
  let top := ranked.take top_k
  match embedding_info with
  | some info => verify_embeddings_match_manifest manifest info
  | none => pure ()
  pure ⟨top, top⟩

end Main

/-! ### src/retrieval/similarity.py -/

namespace Similarity

/-- A 2-d numpy float array of shape `(rows.length, cols)`: every row has
length `cols` (numpy arrays are rectangular and carry their shape, so
`shape[1]` is defined even with zero rows). -/
structure NpMatrix where
  rows : List (List ℚ)
  cols : Nat
  hrect : ∀ r ∈ rows, r.length = cols

/-- The query argument of `cosine_raw_sim`: a numpy array of shape `(d,)`
(`ndim == 1`) or `(1, d)` (`ndim == 2`, whose single row line 102 selects
with `query_vec[0]`). -/
inductive QueryVec where
  | oneD (v : List ℚ) : QueryVec
  | twoD (v : List ℚ) : QueryVec

/-- `q = query_vec[0] if query_vec.ndim == 2 else query_vec`
(src/retrieval/similarity.py line 102). -/
def queryRow : QueryVec → List ℚ
  | .oneD v => v
  | .twoD v => v

/-- Dot product (`doc_vecs @ q` acts row-wise as `np.dot(row, q)`). -/
def dot (xs ys : List ℚ) : ℚ :=
  (List.zipWith (· * ·) xs ys).sum

/-- The ValueError message of `cosine_raw_sim` (lines 105-108). -/
def dimMismatchMsg (qdim ddim : Nat) : String :=
  "Dimension mismatch: query dim " ++ toString qdim ++
  " != doc dim " ++ toString ddim

/-- `cosine_raw_sim` from src/retrieval/similarity.py (lines 83-110):
raise ValueError when the query dimension differs from `doc_vecs.shape[1]`,
otherwise return `doc_vecs @ q`, one dot product per document row. -/
def cosine_raw_sim (query_vec : QueryVec) (doc_vecs : NpMatrix) :
    Except PyError (List ℚ) :=
  let q := queryRow query_vec
  if q.length ≠ doc_vecs.cols then
    .error (.valueError (dimMismatchMsg q.length doc_vecs.cols))
  else
    .ok (doc_vecs.rows.map (fun r => dot r q))

/-- A metadata record from data/doc_meta.jsonl as `build_candidates` uses it
(only `doc_id` and `tier` are read). -/
structure MetaRec where
  doc_id : String
  tier : String
deriving DecidableEq, Repr

/-- `build_candidates` from src/retrieval/similarity.py (lines 113-150).
The file loads (`load_doc_vectors`, `load_doc_meta`) are modelled by the
`doc_vecs` and `meta` arguments.  Checks the meta/vector row counts, then
computes similarities and pairs `meta[i]` with `sims[i]`. -/
def build_candidates (query_vec : QueryVec) (doc_vecs : NpMatrix)
    (meta : List MetaRec) : Except PyError (List Main.Candidate) :=
  if meta.length ≠ doc_vecs.rows.length then
    .error (.valueError "Metadata row count does not match embedding row count.")
  else do
    let sims ← cosine_raw_sim query_vec doc_vecs
    .ok ((meta.zip sims).map (fun p => ⟨p.1.doc_id, p.1.tier, p.2⟩))

end Similarity

/-! ### src/retrieval/doc_embeddings.py -/

namespace DocEmbeddings

/-- `sha256_text` from src/retrieval/doc_embeddings.py (lines 47-49). -/
def sha256_text (text : String) : String :=
  sha256HexOfString text

/-- `sha256_manifest_json` from src/retrieval/doc_embeddings.py (lines
52-60): `path.read_text` plus `json.loads` are modelled by passing the
parsed value; the value is re-serialized canonically
(`ensure_ascii=False, sort_keys=True`) and hashed. -/
def sha256_manifest_json (manifest : JVal) : String :=
  sha256HexOfString (jsonDumps manifest)

/-- Python `key in d` on a parsed JSON value `d` (the membership test the
validation loop of `load_manifest` performs): key lookup for dicts,
substring for strings, element equality for lists, and TypeError for the
non-container scalars. -/
def pyContains (key : String) : JVal → Except PyError Bool
  | .obj kvs => .ok (kvs.any (fun p => p.1 == key))
  | .str s => .ok (listSub key.data s.data)
  | .arr xs => .ok (xs.any (fun x => match x with | .str t => t == key | _ => false))
  | .num _ => .error (.typeError "argument of type \x27int\x27 is not iterable")
  | .bool _ => .error (.typeError "argument of type \x27bool\x27 is not iterable")
  | .null => .error (.typeError "argument of type \x27NoneType\x27 is not iterable")

/-- The ValueError message for a missing required key (line 92). -/
def missingKeyMsg (key : String) (i : Nat) (d : JVal) : String :=
  "Missing \x27" ++ key ++ "\x27 in doc index " ++ toString i ++ ": " ++ pyStr d

/-- The inner loop of `load_manifest` (lines 90-92) on one document:
`for key in ("doc_id", "tier", "content"): if key not in d: raise`. -/
def checkKeys (i : Nat) (d : JVal) : Except PyError Unit := do
  if !(← pyContains "doc_id" d) then
    .error (.valueError (missingKeyMsg "doc_id" i d))
  else if !(← pyContains "tier" d) then
    .error (.valueError (missingKeyMsg "tier" i d))
  else if !(← pyContains "content" d) then
    .error (.valueError (missingKeyMsg "content" i d))
  else .ok ()

/-- The outer loop of `load_manifest` (line 89) over `enumerate(docs)`. -/
def checkDocs : Nat → List JVal → Except PyError Unit
  | _, [] => .ok ()
  | i, d :: ds => do
    checkKeys i d
    checkDocs (i + 1) ds

/-- `load_manifest` from src/retrieval/doc_embeddings.py (lines 63-94).
The file open plus `json.load` are modelled by the parsed `docs` value;
`manifest_path` is used only in the error message. -/
def load_manifest (manifest_path : String) (docs : JVal) :
    Except PyError (List JVal) :=
  match docs with
  | .arr ds =>
    if ds.isEmpty then
      .error (.valueError ("Expected a non-empty list in " ++ manifest_path))
    else do
      checkDocs 0 ds
      .ok ds
  | _ => .error (.valueError ("Expected a non-empty list in " ++ manifest_path))

/-- The embeddings-manifest record written by `write_embedding_manifest`
(src/retrieval/doc_embeddings.py lines 142-148), as later re-read by
`load_embeddings_manifest`. -/
def embeddingManifestRecord (model_name : String) (dim : Int)
    (normalized : Bool) (source_manifest_hash : String)
    (created_at_utc : String) : List (String × JVal) :=
  [("model_name", .str model_name),
   ("embedding_dim", .num dim),
   ("normalized", .bool normalized),
   ("source_manifest_hash", .str source_manifest_hash),
   ("created_at_utc", .str created_at_utc)]

end DocEmbeddings

/-! ### Relating parses of reordered serializations

Python `json.load` turns a JSON document into a value; insignificant
whitespace leaves the parse unchanged, and reordering the members of
objects permutes the entry lists of the parsed dicts (recursively) while
keeping each dict's keys distinct (`json.loads` collapses duplicate keys,
and a serializer emits each key once).  `KeyPerm v w` states exactly that
`v` and `w` are parses of two such serializations of one JSON value. -/

mutual

/-- `v` and `w` differ only by permutations of object entries (with
distinct keys), recursively. -/
inductive KeyPerm : JVal → JVal → Prop
  | null : KeyPerm .null .null
  | bool (b : Bool) : KeyPerm (.bool b) (.bool b)
  | num (n : Int) : KeyPerm (.num n) (.num n)
  | str (s : String) : KeyPerm (.str s) (.str s)
  | arr {xs ys : List JVal} : KeyPermList xs ys → KeyPerm (.arr xs) (.arr ys)
  | obj {l₁ mid l₂ : List (String × JVal)} :
      (l₁.map Prod.fst).Nodup → KeyPermEntries l₁ mid → mid.Perm l₂ →
      KeyPerm (.obj l₁) (.obj l₂)

/-- Pointwise `KeyPerm` on array elements. -/
inductive KeyPermList : List JVal → List JVal → Prop
  | nil : KeyPermList [] []
  | cons {x y : JVal} {xs ys : List JVal} :
      KeyPerm x y → KeyPermList xs ys → KeyPermList (x :: xs) (y :: ys)

/-- Pointwise `KeyPerm` on object entry values, keys unchanged. -/
inductive KeyPermEntries : List (String × JVal) → List (String × JVal) → Prop
  | nil : KeyPermEntries [] []
  | cons {k : String} {v w : JVal} {r₁ r₂ : List (String × JVal)} :
      KeyPerm v w → KeyPermEntries r₁ r₂ →
      KeyPermEntries ((k, v) :: r₁) ((k, w) :: r₂)

end

/-- Demo 2x2 identity document matrix for concrete evaluations. -/
def demoDocs2 : Similarity.NpMatrix :=
  ⟨[[1, 0], [0, 1]], 2, by decide⟩

/-- Demo 1x3 document matrix for concrete evaluations. -/
def demoDocs3 : Similarity.NpMatrix :=
  ⟨[[1, 0, 0]], 3, by decide⟩

/-! ### Lemmas about the canonical serializer -/

theorem dumpsList_eq_map (xs : List JVal) : dumpsList xs = xs.map jsonDumps := by
  induction xs with
  | nil => simp [dumpsList]
  | cons x xs ih => simp [dumpsList, ih]

theorem dumpsEntries_eq_map (l : List (String × JVal)) :
    dumpsEntries l = l.map (fun p => (p.1, jsonDumps p.2)) := by
  induction l with
  | nil => simp [dumpsEntries]
  | cons p l ih => cases p with
    | mk k v => simp [dumpsEntries, ih]

instance : IsTotal (String × String) (fun a b => a.1 ≤ b.1) :=
  ⟨fun a b => le_total a.1 b.1⟩

instance : IsTrans (String × String) (fun a b => a.1 ≤ b.1) :=
  ⟨fun _ _ _ h1 h2 => le_trans h1 h2⟩

instance : IsAntisymm (String × String) (fun a b => a.1 < b.1) :=
  ⟨fun _ _ h1 h2 => absurd h1 (lt_asymm h2)⟩

theorem sortPairs_perm (l : List (String × String)) : List.Perm (sortPairs l) l :=
  List.perm_insertionSort _ l

theorem sortPairs_sorted (l : List (String × String)) :
    (sortPairs l).Sorted (fun a b => a.1 ≤ b.1) :=
  List.sorted_insertionSort _ l

theorem sorted_lt_of_le_nodup {l : List (String × String)}
    (hs : l.Sorted (fun a b => a.1 ≤ b.1)) (hnd : (l.map Prod.fst).Nodup) :
    l.Sorted (fun a b => a.1 < b.1) := by
  have hne : l.Pairwise (fun a b => a.1 ≠ b.1) := List.pairwise_map.mp hnd
  exact (List.Pairwise.and hs hne).imp (fun h => lt_of_le_of_ne h.1 h.2)

/-- Sorting by key is insensitive to the input order when the keys are
distinct: the canonicalization step of `sort_keys=True`. -/
theorem sortPairs_eq_of_perm {l₁ l₂ : List (String × String)} (hp : List.Perm l₁ l₂)
    (hnd : (l₁.map Prod.fst).Nodup) : sortPairs l₁ = sortPairs l₂ := by
  have h1 := sortPairs_perm l₁
  have h2 := sortPairs_perm l₂
  have hperm : List.Perm (sortPairs l₁) (sortPairs l₂) := h1.trans (hp.trans h2.symm)
  have hnd1 : ((sortPairs l₁).map Prod.fst).Nodup :=
    ((h1.map Prod.fst).nodup_iff).mpr hnd
  have hnd2 : ((sortPairs l₂).map Prod.fst).Nodup :=
    ((hperm.map Prod.fst).nodup_iff).mp hnd1
  exact List.eq_of_perm_of_sorted hperm
    (sorted_lt_of_le_nodup (sortPairs_sorted l₁) hnd1)
    (sorted_lt_of_le_nodup (sortPairs_sorted l₂) hnd2)

/-- Keys are unchanged by pointwise entry relation. -/
theorem keyPermEntries_map_fst : ∀ {l₁ l₂ : List (String × JVal)},
    KeyPermEntries l₁ l₂ → l₁.map Prod.fst = l₂.map Prod.fst
  | _, _, .nil => rfl
  | _, _, .cons _ hs => by simpa using keyPermEntries_map_fst hs

mutual

/-- `KeyPerm`-related values have the same canonical serialization: the
heart of the key-order stability of `sha256_manifest_json`. -/
theorem keyPerm_dumps : ∀ {v w : JVal}, KeyPerm v w → jsonDumps v = jsonDumps w
  | _, _, .null => rfl
  | _, _, .bool _ => rfl
  | _, _, .num _ => rfl
  | _, _, .str _ => rfl
  | _, _, .arr h => by
    simp only [jsonDumps]
    rw [keyPermList_dumps h]
  | _, _, .obj hnd hf hp => by
    simp only [jsonDumps]
    have e1 : dumpsEntries _ = dumpsEntries _ := keyPermEntries_dumps hf
    have e2 := hp.map (fun p => (p.1, jsonDumps p.2))
    rw [dumpsEntries_eq_map, dumpsEntries_eq_map] at e1 ⊢
    have hperm := e1 ▸ e2
    have hnd2 : ∀ (l : List (String × JVal)), (l.map Prod.fst).Nodup →
        ((l.map (fun p => (p.1, jsonDumps p.2))).map Prod.fst).Nodup := by
      intro l h
      rw [List.map_map]
      simpa [Function.comp] using h
    rw [sortPairs_eq_of_perm hperm (hnd2 _ hnd)]

/-- Pointwise serialization equality for arrays. -/
theorem keyPermList_dumps : ∀ {xs ys : List JVal},
    KeyPermList xs ys → dumpsList xs = dumpsList ys
  | _, _, .nil => rfl
  | _, _, .cons h hs => by
    simp only [dumpsList]
    rw [keyPerm_dumps h, keyPermList_dumps hs]

/-- Pointwise serialization equality for object entries. -/
theorem keyPermEntries_dumps : ∀ {l₁ l₂ : List (String × JVal)},
    KeyPermEntries l₁ l₂ → dumpsEntries l₁ = dumpsEntries l₂
  | _, _, .nil => rfl
  | _, _, .cons h hs => by
    simp only [dumpsEntries]
    rw [keyPerm_dumps h, keyPermEntries_dumps hs]

end

/-! ### Digest shape lemmas -/

theorem toHex_length (l : List Nat) : (toHex l).length = 2 * l.length := by
  induction l with
  | nil => rfl
  | cons b bs ih =>
    simp [toHex, hexByte, String.length_append, ih]
    omega

theorem digestBytes_length (st : Hash8) : (digestBytes st).length = 32 := by
  simp [digestBytes, wordBytes]

theorem sha256_length (msg : List Nat) : (sha256 msg).length = 32 := by
  rw [sha256]
  exact digestBytes_length _

theorem sha256HexOfString_length (s : String) :
    (sha256HexOfString s).length = 64 := by
  rw [sha256HexOfString, toHex_length, sha256_length]

theorem main_hash_length (v : JVal) :
    (Main.sha256_manifest_json v).length = 64 := by
  rw [Main.sha256_manifest_json]
  exact sha256HexOfString_length _

theorem ne_main_hash_of_length {s : String} (h : s.length ≠ 64) (v : JVal) :
    s ≠ Main.sha256_manifest_json v := by
  intro he
  exact h (he ▸ main_hash_length v)

theorem main_hash_ne_empty (v : JVal) : Main.sha256_manifest_json v ≠ "" := by
  intro he
  have := main_hash_length v
  rw [he] at this
  simp at this

/-! ### Pipeline lemmas -/

theorem processCandidates_eq_map (tms : List (String × ℚ)) :
    ∀ (cands : List Main.Candidate),
    (∀ c ∈ cands, (tms.lookup c.tier).isSome) →
    Main.processCandidates tms cands = .ok (cands.map (fun c =>
      ⟨c.doc_id, c.tier, c.raw_sim, (tms.lookup c.tier).getD 0,
       c.raw_sim * (tms.lookup c.tier).getD 0⟩))
  | [], _ => rfl
  | c :: cs, hall => by
    obtain ⟨m, hm⟩ := Option.isSome_iff_exists.mp (hall c (by simp))
    have ih := processCandidates_eq_map tms cs
      (fun x hx => hall x (by simp [hx]))
    simp [Main.processCandidates, hm, ih, Bind.bind, Except.bind]

theorem processCandidates_err (tms : List (String × ℚ)) :
    ∀ (cands : List Main.Candidate) (c : Main.Candidate), c ∈ cands →
    tms.lookup c.tier = none →
    ∃ t, tms.lookup t = none ∧
      Main.processCandidates tms cands =
        .error (.valueError ("Unknown tier \x27" ++ t ++ "\x27 in manifest."))
  | d :: cs, c, hc, hbad => by
    cases hd : tms.lookup d.tier with
    | none => exact ⟨d.tier, hd, by simp [Main.processCandidates, hd]⟩
    | some m =>
      have hcs : c ∈ cs := by
        rcases List.mem_cons.mp hc with h | h
        · rw [h] at hbad
          rw [hbad] at hd
          exact absurd hd (by simp)
        · exact h
      obtain ⟨t, ht, herr⟩ := processCandidates_err tms cs c hcs hbad
      exact ⟨t, ht, by simp [Main.processCandidates, hd, herr, Bind.bind, Except.bind]⟩

instance : IsTotal Main.ResultRec (fun a b => b.weighted_score ≤ a.weighted_score) :=
  ⟨fun a b => le_total b.weighted_score a.weighted_score⟩

instance : IsTrans Main.ResultRec (fun a b => b.weighted_score ≤ a.weighted_score) :=
  ⟨fun _ _ _ h1 h2 => le_trans h2 h1⟩

theorem rank_results_perm (results : List Main.ResultRec) :
    List.Perm (Main.rank_results results) results :=
  List.perm_insertionSort _ results

theorem rank_results_sorted (results : List Main.ResultRec) :
    (Main.rank_results results).Sorted
      (fun a b => b.weighted_score ≤ a.weighted_score) :=
  List.sorted_insertionSort _ results

theorem sorted_take_drop {α : Type} {r : α → α → Prop} {l : List α} (k : Nat)
    (hs : l.Sorted r) : ∀ x ∈ l.take k, ∀ y ∈ l.drop k, r x y := by
  have h := (List.take_append_drop k l) ▸ hs
  exact (List.pairwise_append.mp h).2.2

theorem verify_mismatch {manifest : JVal} {info : List (String × JVal)}
    {h : String} (hlook : info.lookup "source_manifest_hash" = some (.str h))
    (hne : h ≠ "") (hdiff : h ≠ Main.sha256_manifest_json manifest) :
    Main.verify_embeddings_match_manifest manifest info =
      .error (.runtimeError
        (Main.mismatchMsg (.str h) (Main.sha256_manifest_json manifest))) := by
  simp [Main.verify_embeddings_match_manifest, hlook, pyTruthy, hne,
    Main.pyEqStrJV, Ne.symm hdiff]

theorem verify_match {manifest : JVal} {info : List (String × JVal)}
    {h : String} (hlook : info.lookup "source_manifest_hash" = some (.str h))
    (heq : h = Main.sha256_manifest_json manifest) :
    Main.verify_embeddings_match_manifest manifest info = .ok () := by
  simp [Main.verify_embeddings_match_manifest, hlook, pyTruthy,
    Main.pyEqStrJV, heq, main_hash_ne_empty manifest]

theorem mainPipeline_err_of_process {tms : List (String × ℚ)} (top_k : Nat)
    {cands : List Main.Candidate} (manifest : JVal)
    (embInfo : Option (List (String × JVal))) {e : PyError}
    (herr : Main.processCandidates tms cands = .error e) :
    Main.mainPipeline tms top_k cands manifest embInfo = .error e := by
  simp [Main.mainPipeline, herr, Bind.bind, Except.bind]

theorem mainPipeline_err_of_verify {tms : List (String × ℚ)} (top_k : Nat)
    {cands : List Main.Candidate} {manifest : JVal}
    {info : List (String × JVal)} {rs : List Main.ResultRec} {e : PyError}
    (hok : Main.processCandidates tms cands = .ok rs)
    (hverr : Main.verify_embeddings_match_manifest manifest info = .error e) :
    Main.mainPipeline tms top_k cands manifest (some info) = .error e := by
  simp [Main.mainPipeline, hok, hverr, Bind.bind, Except.bind]

/-- Claim C1: in a run of the main pipeline whose recorded
`source_manifest_hash` (a truthy string) differs from the freshly computed
hash of the current manifest, `verify_embeddings_match_manifest` raises a
RuntimeError whose message carries both hashes and a fix hint, and — since
verification runs before `log_run` — the pipeline aborts with that error, so
no log is written in that run; when the two hashes are equal, verification
returns without error. -/
theorem claim_C1_mismatch_aborts_run
    (tms : List (String × ℚ)) (top_k : Nat) (cands : List Main.Candidate)
    (manifest : JVal) (info : List (String × JVal)) (h : String)
    (hlook : info.lookup "source_manifest_hash" = some (.str h))
    (hne : h ≠ "")
    (hreach : ∃ rs, Main.processCandidates tms cands = .ok rs) :
    (h ≠ Main.sha256_manifest_json manifest →
      Main.verify_embeddings_match_manifest manifest info =
        .error (.runtimeError
          (Main.mismatchMsg (.str h) (Main.sha256_manifest_json manifest))) ∧
      Main.mainPipeline tms top_k cands manifest (some info) =
        .error (.runtimeError
          (Main.mismatchMsg (.str h) (Main.sha256_manifest_json manifest))) ∧
      ∀ out, Main.mainPipeline tms top_k cands manifest (some info) ≠ .ok out) ∧
    (h = Main.sha256_manifest_json manifest →
      Main.verify_embeddings_match_manifest manifest info = .ok ()) := by
  obtain ⟨rs, hrs⟩ := hreach
  refine ⟨fun hdiff => ?_, fun heq => verify_match hlook heq⟩
  have hv := verify_mismatch hlook hne hdiff
  have hp := mainPipeline_err_of_verify top_k hrs hv
  exact ⟨hv, hp, fun out hout => by rw [hp] at hout; exact Except.noConfusion hout⟩

/-- Witness for C1 at a concrete run: recorded hash "x" (truthy, and shorter
than any SHA-256 hex digest, hence different), one candidate with a known
tier. -/
theorem claim_C1_mismatch_aborts_run_witness :
    Main.mainPipeline [("T1", 2)] 5 [⟨"d1", "T1", 1/2⟩] (JVal.obj [])
        (some [("source_manifest_hash", JVal.str "x")]) =
      .error (.runtimeError (Main.mismatchMsg (.str "x")
        (Main.sha256_manifest_json (JVal.obj [])))) :=
  ((claim_C1_mismatch_aborts_run [("T1", 2)] 5 [⟨"d1", "T1", 1/2⟩]
      (JVal.obj []) [("source_manifest_hash", JVal.str "x")] "x"
      rfl (by decide) ⟨_, rfl⟩).1
    (ne_main_hash_of_length (by decide) _)).2.1

/-- Claim C10: `verify_embeddings_match_manifest` raises ValueError whenever
`embedding_info` lacks a `source_manifest_hash` key or holds a falsy value
there, without reading or hashing the manifest file (formally: the result is
the same for every manifest); the hash comparison is reached only when a
truthy recorded hash is present. -/
theorem claim_C10_missing_hash_aborts
    (info : List (String × JVal))
    (hmiss : info.lookup "source_manifest_hash" = none ∨
      ∃ v, info.lookup "source_manifest_hash" = some v ∧ pyTruthy v = false) :
    (∀ manifest, Main.verify_embeddings_match_manifest manifest info =
      .error (.valueError Main.missingHashMsg)) ∧
    ∀ m₁ m₂, Main.verify_embeddings_match_manifest m₁ info =
      Main.verify_embeddings_match_manifest m₂ info := by
  have h1 : ∀ manifest, Main.verify_embeddings_match_manifest manifest info =
      .error (.valueError Main.missingHashMsg) := by
    intro manifest
    rcases hmiss with hn | ⟨v, hv, hf⟩
    · simp [Main.verify_embeddings_match_manifest, hn]
    · simp [Main.verify_embeddings_match_manifest, hv, hf]
  exact ⟨h1, fun m₁ m₂ => (h1 m₁).trans (h1 m₂).symm⟩

/-- Witness for C10: an embeddings manifest with no recorded hash is
rejected identically for two distinct manifests. -/
theorem claim_C10_missing_hash_aborts_witness :
    Main.verify_embeddings_match_manifest (JVal.obj []) [] =
      .error (.valueError Main.missingHashMsg) ∧
    Main.verify_embeddings_match_manifest (JVal.str "a") [] =
      Main.verify_embeddings_match_manifest (JVal.num 7) [] :=
  ⟨(claim_C10_missing_hash_aborts [] (Or.inl rfl)).1 _,
   (claim_C10_missing_hash_aborts [] (Or.inl rfl)).2 _ _⟩

/-- Claim C9: a candidate whose tier is not a key of `tier_multipliers`
makes the pipeline raise ValueError naming an unknown tier; the error
pre-empts ranking, truncation, verification (any `embInfo` whatsoever, even
one that would itself fail verification) and log writing, so no result
record is produced. -/
theorem claim_C9_unknown_tier_aborts
    (tms : List (String × ℚ)) (top_k : Nat) (cands : List Main.Candidate)
    (manifest : JVal) (embInfo : Option (List (String × JVal)))
    (c : Main.Candidate) (hc : c ∈ cands) (hbad : tms.lookup c.tier = none) :
    ∃ t, tms.lookup t = none ∧
      Main.mainPipeline tms top_k cands manifest embInfo =
        .error (.valueError ("Unknown tier \x27" ++ t ++ "\x27 in manifest.")) ∧
      ∀ out, Main.mainPipeline tms top_k cands manifest embInfo ≠ .ok out := by
  obtain ⟨t, ht, herr⟩ := processCandidates_err tms cands c hc hbad
  have hp := mainPipeline_err_of_process top_k manifest embInfo herr
  exact ⟨t, ht, hp, fun out hout => by
    rw [hp] at hout
    exact Except.noConfusion hout⟩

/-- Witness for C9: one candidate with tier "TX" not among the configured
multipliers. -/
theorem claim_C9_unknown_tier_aborts_witness :
    ∃ t, ([("T1", (2 : ℚ))].lookup t) = none ∧
      Main.mainPipeline [("T1", 2)] 3 [⟨"d1", "TX", 1⟩] (JVal.obj []) none =
        .error (.valueError ("Unknown tier \x27" ++ t ++ "\x27 in manifest.")) ∧
      ∀ out, Main.mainPipeline [("T1", 2)] 3 [⟨"d1", "TX", 1⟩]
        (JVal.obj []) none ≠ .ok out :=
  claim_C9_unknown_tier_aborts [("T1", 2)] 3 [⟨"d1", "TX", 1⟩] (JVal.obj [])
    none ⟨"d1", "TX", 1⟩ (by simp) rfl

/-- Claim C2: `sha256_manifest_json` yields one digest for any two
serializations of a JSON value differing only in object key order and/or
insignificant whitespace.  Whitespace leaves the parse unchanged; key
reordering gives `KeyPerm`-related parses; the function canonicalizes by
re-serializing with sorted keys before hashing, so `KeyPerm`-related parses
hash identically. -/
theorem claim_C2_hash_canonical (v w : JVal) (h : KeyPerm v w) :
    Main.sha256_manifest_json v = Main.sha256_manifest_json w := by
  rw [Main.sha256_manifest_json, Main.sha256_manifest_json, keyPerm_dumps h]

/-- Witness for C2: the two key orders of `{"b": 2, "a": "x"}` hash
identically. -/
theorem claim_C2_hash_canonical_witness :
    KeyPerm (JVal.obj [("b", .num 2), ("a", .str "x")])
      (JVal.obj [("a", .str "x"), ("b", .num 2)]) ∧
    Main.sha256_manifest_json (JVal.obj [("b", .num 2), ("a", .str "x")]) =
      Main.sha256_manifest_json (JVal.obj [("a", .str "x"), ("b", .num 2)]) := by
  have hk : KeyPerm (JVal.obj [("b", .num 2), ("a", .str "x")])
      (JVal.obj [("a", .str "x"), ("b", .num 2)]) :=
    KeyPerm.obj (by decide)
      (KeyPermEntries.cons (KeyPerm.num 2)
        (KeyPermEntries.cons (KeyPerm.str "x") KeyPermEntries.nil))
      (List.Perm.swap ("a", JVal.str "x") ("b", JVal.num 2) [])
  exact ⟨hk, claim_C2_hash_canonical _ _ hk⟩

/-- Claim C3: the check-time hasher (src/main.py) and the generation-time
hasher (src/retrieval/doc_embeddings.py) compute identical digests for
identical manifest content; consequently the integrity check accepts a
generation-time record exactly when the current manifest's canonical hash
equals the one recorded at generation time. -/
theorem claim_C3_hashers_agree (v w : JVal) (mn ts : String) (d : Int)
    (b : Bool) :
    Main.sha256_manifest_json v = DocEmbeddings.sha256_manifest_json v ∧
    (Main.verify_embeddings_match_manifest w
        (DocEmbeddings.embeddingManifestRecord mn d b
          (DocEmbeddings.sha256_manifest_json v) ts) = .ok () ↔
      Main.sha256_manifest_json w = DocEmbeddings.sha256_manifest_json v) := by
  have hlook : (DocEmbeddings.embeddingManifestRecord mn d b
      (DocEmbeddings.sha256_manifest_json v) ts).lookup
        "source_manifest_hash" =
      some (.str (DocEmbeddings.sha256_manifest_json v)) := by
    simp [DocEmbeddings.embeddingManifestRecord, List.lookup]
  refine ⟨rfl, ?_, fun heq => verify_match hlook heq.symm⟩
  intro hok
  by_cases heq : Main.sha256_manifest_json w = DocEmbeddings.sha256_manifest_json v
  · exact heq
  · exfalso
    have hdiff : DocEmbeddings.sha256_manifest_json v ≠
        Main.sha256_manifest_json w := fun e => heq e.symm
    have hne : DocEmbeddings.sha256_manifest_json v ≠ "" :=
      main_hash_ne_empty v
    rw [verify_mismatch hlook hne hdiff] at hok
    exact Except.noConfusion hok

/-- Claim C5: `rank_results` returns a permutation of its input sorted in
descending order of `weighted_score`; truncating to `top_k` yields
`min top_k N` results, each of whose `weighted_score` is at least that of
every discarded result. -/
theorem claim_C5_rank_and_truncate (results : List Main.ResultRec) (k : Nat) :
    List.Perm (Main.rank_results results) results ∧
    (Main.rank_results results).Sorted
      (fun a b => b.weighted_score ≤ a.weighted_score) ∧
    ((Main.rank_results results).take k).length = min k results.length ∧
    ∀ x ∈ (Main.rank_results results).take k,
      ∀ y ∈ (Main.rank_results results).drop k,
        y.weighted_score ≤ x.weighted_score := by
  refine ⟨rank_results_perm results, rank_results_sorted results, ?_, ?_⟩
  · rw [List.length_take, (rank_results_perm results).length_eq]
  · exact sorted_take_drop k (rank_results_sorted results)

/-- Claim C4: every candidate whose tier is configured yields a result
record whose `weighted_score` is its raw similarity times the tier's
configured multiplier, and `weighted_score` is the (descending) ordering
key of `rank_results`. -/
theorem claim_C4_weighted_score
    (tms : List (String × ℚ)) (cands : List Main.Candidate)
    (hall : ∀ c ∈ cands, (tms.lookup c.tier).isSome) :
    ∃ results, Main.processCandidates tms cands = .ok results ∧
      List.Forall₂ (fun (c : Main.Candidate) (r : Main.ResultRec) =>
        r.doc_id = c.doc_id ∧ r.tier = c.tier ∧ r.similarity = c.raw_sim ∧
        tms.lookup c.tier = some r.multiplier ∧
        r.weighted_score = c.raw_sim * r.multiplier) cands results ∧
      List.Perm (Main.rank_results results) results ∧
      (Main.rank_results results).Sorted
        (fun a b => b.weighted_score ≤ a.weighted_score) := by
  refine ⟨_, processCandidates_eq_map tms cands hall, ?_,
    rank_results_perm _, rank_results_sorted _⟩
  rw [List.forall₂_map_right_iff]
  rw [List.forall₂_same]
  intro c hc
  obtain ⟨m, hm⟩ := Option.isSome_iff_exists.mp (hall c hc)
  simp [hm]

/-- Witness for C4: two candidates with configured tiers "T1" and "T2". -/
theorem claim_C4_weighted_score_witness :
    ∃ results, Main.processCandidates [("T1", 2), ("T2", 1/2)]
        [⟨"d1", "T2", 3⟩, ⟨"d2", "T1", 1⟩] = .ok results ∧
      List.Forall₂ (fun (c : Main.Candidate) (r : Main.ResultRec) =>
        r.doc_id = c.doc_id ∧ r.tier = c.tier ∧ r.similarity = c.raw_sim ∧
        ([("T1", (2 : ℚ)), ("T2", 1/2)].lookup c.tier) = some r.multiplier ∧
        r.weighted_score = c.raw_sim * r.multiplier)
        [⟨"d1", "T2", 3⟩, ⟨"d2", "T1", 1⟩] results ∧
      List.Perm (Main.rank_results results) results ∧
      (Main.rank_results results).Sorted
        (fun a b => b.weighted_score ≤ a.weighted_score) :=
  claim_C4_weighted_score [("T1", 2), ("T2", 1/2)]
    [⟨"d1", "T2", 3⟩, ⟨"d2", "T1", 1⟩] (by decide)

/-- Claim C6: for a query of shape `(d,)` or `(1, d)` and an `(N, d)`
document matrix, `cosine_raw_sim` returns `N` scores with score `i` the dot
product of document row `i` with the query; when the query dimension
differs from the document dimension it raises ValueError instead. -/
theorem claim_C6_cosine_raw_sim (q : Similarity.QueryVec)
    (docs : Similarity.NpMatrix) :
    ((Similarity.queryRow q).length = docs.cols →
      ∃ scores, Similarity.cosine_raw_sim q docs = .ok scores ∧
        scores.length = docs.rows.length ∧
        ∀ i (h1 : i < scores.length) (h2 : i < docs.rows.length),
          scores[i] = Similarity.dot docs.rows[i] (Similarity.queryRow q)) ∧
    ((Similarity.queryRow q).length ≠ docs.cols →
      Similarity.cosine_raw_sim q docs =
        .error (.valueError (Similarity.dimMismatchMsg
          (Similarity.queryRow q).length docs.cols))) := by
  constructor
  · intro hdim
    refine ⟨docs.rows.map (fun r => Similarity.dot r (Similarity.queryRow q)),
      by simp [Similarity.cosine_raw_sim, hdim], by simp, ?_⟩
    intro i h1 h2
    simp
  · intro hdim
    simp [Similarity.cosine_raw_sim, hdim]

/-- Witness for C6: a `(2,)` query against a 2x2 matrix (scores returned)
and against a 1x3 matrix (ValueError). -/
theorem claim_C6_cosine_raw_sim_witness :
    (∃ scores, Similarity.cosine_raw_sim (.oneD [1, 0]) demoDocs2 =
        .ok scores ∧
      scores.length = demoDocs2.rows.length ∧
      ∀ i (h1 : i < scores.length) (h2 : i < demoDocs2.rows.length),
        scores[i] = Similarity.dot demoDocs2.rows[i]
          (Similarity.queryRow (.oneD [1, 0]))) ∧
    Similarity.cosine_raw_sim (.oneD [1, 0]) demoDocs3 =
      .error (.valueError (Similarity.dimMismatchMsg 2 3)) :=
  ⟨(claim_C6_cosine_raw_sim (.oneD [1, 0]) demoDocs2).1 (by decide),
   (claim_C6_cosine_raw_sim (.oneD [1, 0]) demoDocs3).2 (by decide)⟩

/-- Counterexample to C7 as stated: with matching metadata/vector counts
(one of each) but a 2-dimensional query against 3-dimensional document
vectors, `build_candidates` raises ValueError (from `cosine_raw_sim`)
instead of returning one candidate per row. -/
theorem claim_C7_counterexample :
    ([⟨"d1", "T1"⟩] : List Similarity.MetaRec).length =
      demoDocs3.rows.length ∧
    Similarity.build_candidates (.oneD [1, 0]) demoDocs3 [⟨"d1", "T1"⟩] =
      .error (.valueError (Similarity.dimMismatchMsg 2 3)) :=
  ⟨rfl, rfl⟩

/-- Claim C7 (amended): `build_candidates` raises ValueError whenever the
metadata count differs from the vector row count; otherwise — provided the
query dimension matches the document dimension — it returns one candidate
per row `i`, pairing `meta[i]`'s `doc_id` and `tier` with the similarity of
vector row `i` (a `Candidate` holds exactly the fields `doc_id`, `tier`,
`raw_sim`). -/
theorem claim_C7_build_candidates (q : Similarity.QueryVec)
    (docs : Similarity.NpMatrix) (meta : List Similarity.MetaRec) :
    (meta.length ≠ docs.rows.length →
      Similarity.build_candidates q docs meta = .error
        (.valueError "Metadata row count does not match embedding row count.")) ∧
    (meta.length = docs.rows.length →
      (Similarity.queryRow q).length = docs.cols →
      ∃ cs, Similarity.build_candidates q docs meta = .ok cs ∧
        cs.length = meta.length ∧
        ∀ i (h1 : i < cs.length) (h2 : i < meta.length)
          (h3 : i < docs.rows.length),
          cs[i] = ⟨meta[i].doc_id, meta[i].tier,
            Similarity.dot docs.rows[i] (Similarity.queryRow q)⟩) := by
  constructor
  · intro hne
    simp [Similarity.build_candidates, hne]
  · intro hlen hdim
    have hsim : Similarity.cosine_raw_sim q docs =
        .ok (docs.rows.map (fun r => Similarity.dot r (Similarity.queryRow q))) := by
      simp [Similarity.cosine_raw_sim, hdim]
    refine ⟨(meta.zip (docs.rows.map
        (fun r => Similarity.dot r (Similarity.queryRow q)))).map
        (fun p => ⟨p.1.doc_id, p.1.tier, p.2⟩), ?_, ?_, ?_⟩
    · simp [Similarity.build_candidates, hlen, hsim, Bind.bind, Except.bind]
    · simp [hlen]
    · intro i h1 h2 h3
      simp [List.getElem_zip]

/-- Witness for C7 (amended): mismatched counts raise; matched counts with
a compatible query return the paired candidates. -/
theorem claim_C7_build_candidates_witness :
    Similarity.build_candidates (.oneD [1, 0]) demoDocs3 [] = .error
      (.valueError "Metadata row count does not match embedding row count.") ∧
    ∃ cs, Similarity.build_candidates (.oneD [1, 0]) demoDocs2
        [⟨"d1", "T1"⟩, ⟨"d2", "T2"⟩] = .ok cs ∧
      cs.length = ([⟨"d1", "T1"⟩, ⟨"d2", "T2"⟩] : List Similarity.MetaRec).length ∧
      ∀ i (h1 : i < cs.length)
        (h2 : i < ([⟨"d1", "T1"⟩, ⟨"d2", "T2"⟩] : List Similarity.MetaRec).length)
        (h3 : i < demoDocs2.rows.length),
        cs[i] = ⟨([⟨"d1", "T1"⟩, ⟨"d2", "T2"⟩] : List Similarity.MetaRec)[i].doc_id,
          ([⟨"d1", "T1"⟩, ⟨"d2", "T2"⟩] : List Similarity.MetaRec)[i].tier,
          Similarity.dot demoDocs2.rows[i]
            (Similarity.queryRow (.oneD [1, 0]))⟩ :=
  ⟨(claim_C7_build_candidates (.oneD [1, 0]) demoDocs3 []).1 (by decide),
   (claim_C7_build_candidates (.oneD [1, 0]) demoDocs2
     [⟨"d1", "T1"⟩, ⟨"d2", "T2"⟩]).2 rfl (by decide)⟩

/-- Claim C8 exposes a code bug: `load_manifest` accepts a manifest whose
only element is the bare string "doc_id tier content" — not a record
containing the required keys — because the validation's `key not in d`
performs substring search on a string element; the documented contract
(dict records with `doc_id`, `tier`, `content`) requires a ValueError
here. -/
theorem claim_C8_load_manifest_bug :
    DocEmbeddings.load_manifest "data/manifest.json"
        (.arr [.str "doc_id tier content"]) =
      .ok [.str "doc_id tier content"] :=
  rfl

end Riswis
